import Mathlib

/-!
Verification development for the catnip user-space TCP stack.

The repository excerpt under `src/` contains only the TCP handshake test
scaffolding (`src/protocols/tcp/tests/setup.rs`); the codec, connection
state machine, engine and scheduler that the tests drive are not part of
the excerpt.  Following the specification, those missing components are
modelled here from the spec's own words (each such definition is marked
`Modelled from the spec:`), shaped to match the interface the test file
exercises (`Ethernet2Header::parse`, `Ipv4Header::parse`,
`TcpHeader::parse(&ipv4_header, payload, checksum_flag)`, `tcp_socket`,
`tcp_bind`, `tcp_listen`, `tcp_accept`, `tcp_connect`, `receive`,
`poll_scheduler`, `pop_frame`, `advance_clock`, and the connect/accept
future polls).

Frames are lists of natural numbers (bytes, big-endian multi-byte fields);
sequence numbers use modular arithmetic on 2^32.
-/

namespace Catnip

/-- Error taxonomy. Modelled from the spec: section 7 lists the error values
of the missing `fail.rs`; only `malformedHeader` is produced by the codec. -/
inductive Fail where
  | malformedHeader
  | addressInUse
  | invalidState
  | notConnected
  | connectionRefused
  | connectionTimedOut
  | protocolError
  | cancelled
deriving DecidableEq, Repr

instance instDecEqExcept {ε α : Type} [DecidableEq ε] [DecidableEq α] :
    DecidableEq (Except ε α) := fun x y => by
  cases x with
  | ok a =>
    cases y with
    | ok b =>
      exact if h : a = b then isTrue (by rw [h]) else
        isFalse (fun hh => h (by injection hh))
    | error b => exact isFalse (fun hh => Except.noConfusion hh)
  | error a =>
    cases y with
    | ok b => exact isFalse (fun hh => Except.noConfusion hh)
    | error b =>
      exact if h : a = b then isTrue (by rw [h]) else
        isFalse (fun hh => h (by injection hh))

/-! ## Byte-level helpers -/

/-- Big-endian two-byte encoding of a 16-bit field. -/
def u16b (x : Nat) : List Nat := [x / 256 % 256, x % 256]

/-- Big-endian four-byte encoding of a 32-bit field. -/
def u32b (x : Nat) : List Nat :=
  [x / 16777216 % 256, x / 65536 % 256, x / 256 % 256, x % 256]

/-- Big-endian six-byte encoding of a 48-bit MAC address. -/
def macb (x : Nat) : List Nat :=
  [x / 1099511627776 % 256, x / 4294967296 % 256, x / 16777216 % 256,
   x / 65536 % 256, x / 256 % 256, x % 256]

/-- Byte of a buffer at an index, zero when out of range. -/
def byteAt : List Nat → Nat → Nat
  | [], _ => 0
  | a :: _, 0 => a
  | _ :: l, n + 1 => byteAt l n

/-- Read a big-endian 16-bit field at an offset. -/
def rd16 (b : List Nat) (i : Nat) : Nat := 256 * byteAt b i + byteAt b (i + 1)

/-- Read a big-endian 32-bit field at an offset. -/
def rd32 (b : List Nat) (i : Nat) : Nat :=
  16777216 * byteAt b i + 65536 * byteAt b (i + 1) +
  256 * byteAt b (i + 2) + byteAt b (i + 3)

/-- Read a big-endian 48-bit field at an offset. -/
def rd48 (b : List Nat) (i : Nat) : Nat :=
  1099511627776 * byteAt b i + 4294967296 * byteAt b (i + 1) +
  16777216 * byteAt b (i + 2) + 65536 * byteAt b (i + 3) +
  256 * byteAt b (i + 4) + byteAt b (i + 5)

/-- One's-complement 16-bit addition with end-around carry. -/
def addc (a b : Nat) : Nat :=
  if a + b < 65536 then a + b else (a + b + 1) % 65536

/-- Group a byte list into big-endian 16-bit words, padding to even length.
Modelled from the spec: the checksum is a 16-bit one's-complement sum over
data "padded to even length". -/
def toWords : List Nat → List Nat
  | [] => []
  | [b] => [b * 256]
  | b0 :: b1 :: rest => (b0 * 256 + b1) :: toWords rest

/-- One's-complement sum of the 16-bit words of a byte list. -/
def onesSum (bytes : List Nat) : Nat := (toWords bytes).foldl addc 0

/-- One's complement of a 16-bit value. -/
def onesComplement (x : Nat) : Nat := 65535 - x

/-- Wrap a value to 32 bits. Modelled from the spec: sequence/acknowledgment
numbers use wraparound (modular) arithmetic. -/
def w32 (n : Nat) : Nat := n % 4294967296

/-! ## Ethernet II codec -/

/-- Ether types the stack decodes. Modelled from the spec: the stack proceeds
only for IPv4; ARP is the other wire value the runtime exchanges. -/
inductive EtherType2 where
  | Ipv4
  | Arp
deriving DecidableEq, Repr

/-- Wire code of an ether type. -/
def etherTypeCode : EtherType2 → Nat
  | .Ipv4 => 2048
  | .Arp => 2054

/-- Decode an ether-type wire value; unknown values are unparseable. -/
def etherTypeOfCode (c : Nat) : Option EtherType2 :=
  if c = 2048 then some .Ipv4 else if c = 2054 then some .Arp else none

/-- Ethernet II header. Modelled from the spec: destination MAC, source MAC
and ether type, as read by the test scaffold. -/
structure Ethernet2Header where
  dst_addr : Nat
  src_addr : Nat
  ether_type : EtherType2
deriving DecidableEq, Repr

/-- Serialize an Ethernet II header in front of a payload.
Modelled from the spec: Ethernet-II wire format (dst MAC, src MAC,
ether-type, payload), all fields big-endian. -/
def Ethernet2Header.serialize (h : Ethernet2Header) (payload : List Nat) :
    List Nat :=
  macb h.dst_addr ++ macb h.src_addr ++ u16b (etherTypeCode h.ether_type) ++
  payload

/-- Parse an Ethernet II header off the front of a frame.
Modelled from the spec: fails with `MalformedHeader` when the buffer is
shorter than the 14-byte fixed header or the ether type is unknown. -/
def Ethernet2Header.parse (b : List Nat) :
    Except Fail (Ethernet2Header × List Nat) :=
  if b.length < 14 then .error .malformedHeader
  else
    match etherTypeOfCode (rd16 b 12) with
    | none => .error .malformedHeader
    | some t =>
      .ok ({ dst_addr := rd48 b 0, src_addr := rd48 b 6, ether_type := t },
           b.drop 14)

/-- Well-formedness of an Ethernet II header: MAC addresses fit in 48 bits. -/
def Ethernet2Header.Wf (h : Ethernet2Header) : Prop :=
  h.dst_addr < 281474976710656 ∧ h.src_addr < 281474976710656

instance (h : Ethernet2Header) : Decidable h.Wf := by
  unfold Ethernet2Header.Wf; infer_instance

/-! ## IPv4 codec -/

/-- IPv4 header. Modelled from the spec: source/destination address and a
protocol identifier that must equal TCP's; total length and header checksum
are computed on serialization and validated on parsing. -/
structure Ipv4Header where
  src_addr : Nat
  dst_addr : Nat
  protocol : Nat
deriving DecidableEq, Repr

/-- The 20 header bytes of an IPv4 packet for a given total length and
checksum field value: version/IHL 0x45, zero DSCP, total length,
zero identification and fragmenting, TTL 64, protocol, checksum,
source address, destination address. -/
def Ipv4Header.bodyBytes (h : Ipv4Header) (totalLen ck : Nat) : List Nat :=
  [69, 0] ++ u16b totalLen ++ [0, 0, 0, 0, 64, h.protocol] ++ u16b ck ++
  u32b h.src_addr ++ u32b h.dst_addr

/-- Zero out the checksum field (bytes 10-11) of an IPv4 header buffer. -/
def zeroIpCk (b : List Nat) : List Nat := b.take 10 ++ [0, 0] ++ b.drop 12

/-- IPv4 header checksum: one's-complement sum over the header bytes with
the checksum field read as zero. -/
def ipv4Checksum (hdr : List Nat) : Nat :=
  onesComplement (onesSum (zeroIpCk hdr))

/-- Serialize an IPv4 header in front of a payload, computing total length
and header checksum. Modelled from the spec: section 4.1 and section 6. -/
def Ipv4Header.serialize (h : Ipv4Header) (payload : List Nat) : List Nat :=
  h.bodyBytes (20 + payload.length)
    (ipv4Checksum (h.bodyBytes (20 + payload.length) 0)) ++ payload

/-- Parse an IPv4 header off the front of a buffer. Modelled from the spec:
fails with `MalformedHeader` when the buffer is shorter than the 20-byte
fixed header, when the version/IHL byte is not 0x45, when the total-length
field disagrees with the actual buffer size, when the protocol is not TCP,
or when the header checksum fails validation. -/
def Ipv4Header.parse (b : List Nat) : Except Fail (Ipv4Header × List Nat) :=
  if b.length < 20 then .error .malformedHeader
  else if byteAt b 0 ≠ 69 then .error .malformedHeader
  else if rd16 b 2 ≠ b.length then .error .malformedHeader
  else if byteAt b 9 ≠ 6 then .error .malformedHeader
  else if ipv4Checksum (b.take 20) ≠ rd16 b 10 then .error .malformedHeader
  else
    .ok ({ src_addr := rd32 b 12, dst_addr := rd32 b 16,
           protocol := byteAt b 9 },
         b.drop 20)

/-- Well-formedness of an IPv4 header: addresses fit in 32 bits and the
protocol is TCP (6), as the spec requires for this stack. -/
def Ipv4Header.Wf (h : Ipv4Header) : Prop :=
  h.src_addr < 4294967296 ∧ h.dst_addr < 4294967296 ∧ h.protocol = 6

instance (h : Ipv4Header) : Decidable h.Wf := by
  unfold Ipv4Header.Wf; infer_instance

/-! ## TCP codec -/

/-- TCP header. Modelled from the spec: source/destination port, sequence
and acknowledgment numbers, the SYN/ACK/FIN/RST/PSH flags and window size;
the checksum is computed on serialization and validated on parsing. -/
structure TcpHeader where
  src_port : Nat
  dst_port : Nat
  seq_num : Nat
  ack_num : Nat
  window_size : Nat
  syn : Bool
  ack : Bool
  fin : Bool
  rst : Bool
  psh : Bool
deriving DecidableEq, Repr

/-- Flags byte of a TCP header (FIN bit 0, SYN bit 1, RST bit 2,
PSH bit 3, ACK bit 4). -/
def TcpHeader.flagsByte (h : TcpHeader) : Nat :=
  (if h.fin then 1 else 0) + 2 * (if h.syn then 1 else 0) +
  4 * (if h.rst then 1 else 0) + 8 * (if h.psh then 1 else 0) +
  16 * (if h.ack then 1 else 0)

/-- The 20 header bytes of a TCP segment with a given checksum field value
(data offset 5, no options, zero urgent pointer). -/
def TcpHeader.bodyBytes (h : TcpHeader) (ck : Nat) (payload : List Nat) :
    List Nat :=
  u16b h.src_port ++ u16b h.dst_port ++ u32b h.seq_num ++ u32b h.ack_num ++
  [80, h.flagsByte] ++ u16b h.window_size ++ u16b ck ++ [0, 0] ++ payload

/-- The TCP pseudo-header: source and destination IPv4 address, zero byte,
protocol 6, TCP segment length. Modelled from the spec: the checksum covers
a pseudo-header of source/dest IP, protocol and segment length. -/
def tcpPseudo (ih : Ipv4Header) (segLen : Nat) : List Nat :=
  u32b ih.src_addr ++ u32b ih.dst_addr ++ [0, 6] ++ u16b segLen

/-- TCP checksum of a segment under a given IPv4 header: one's-complement
sum over pseudo-header, TCP header and payload. -/
def tcpChecksum (ih : Ipv4Header) (seg : List Nat) : Nat :=
  onesComplement (onesSum (tcpPseudo ih seg.length ++ seg))

/-- Zero out the checksum field (bytes 16-17) of a TCP segment buffer. -/
def zeroTcpCk (b : List Nat) : List Nat := b.take 16 ++ [0, 0] ++ b.drop 18

/-- Serialize a TCP header and payload, computing the checksum over the
pseudo-header for the given IPv4 header. -/
def TcpHeader.serialize (ih : Ipv4Header) (h : TcpHeader)
    (payload : List Nat) : List Nat :=
  h.bodyBytes (tcpChecksum ih (h.bodyBytes 0 payload)) payload

/-- Data-offset field of a TCP segment buffer (claimed header length in
32-bit words). -/
def dataOffsetOf (b : List Nat) : Nat := byteAt b 12 / 16

/-- The TCP data-offset length field disagrees with the actual buffer size:
it claims a header shorter than the fixed minimum or longer than the
buffer. -/
def tcpLenFieldMismatch (b : List Nat) : Prop :=
  dataOffsetOf b < 5 ∨ 4 * dataOffsetOf b > b.length

instance (b : List Nat) : Decidable (tcpLenFieldMismatch b) := by
  unfold tcpLenFieldMismatch; infer_instance

/-- Fields of a parsed TCP header read from a segment buffer. -/
def readTcpHeader (b : List Nat) : TcpHeader :=
  { src_port := rd16 b 0, dst_port := rd16 b 2,
    seq_num := rd32 b 4, ack_num := rd32 b 8,
    window_size := rd16 b 14,
    fin := byteAt b 13 % 2 == 1,
    syn := byteAt b 13 / 2 % 2 == 1,
    rst := byteAt b 13 / 4 % 2 == 1,
    psh := byteAt b 13 / 8 % 2 == 1,
    ack := byteAt b 13 / 16 % 2 == 1 }

/-- Parse a TCP header off a segment buffer under an IPv4 header, with
checksum validation controlled by a boolean parameter. Modelled from the
spec: fails with `MalformedHeader` when the buffer is shorter than the
fixed header length, when the data-offset length field disagrees with the
actual buffer size, or when checksum validation is enabled and the
checksum fails. -/
def TcpHeader.parse (ih : Ipv4Header) (b : List Nat) (checksumCheck : Bool) :
    Except Fail (TcpHeader × List Nat) :=
  if b.length < 20 then .error .malformedHeader
  else if tcpLenFieldMismatch b then .error .malformedHeader
  else if checksumCheck = true ∧ tcpChecksum ih (zeroTcpCk b) ≠ rd16 b 16 then
    .error .malformedHeader
  else .ok (readTcpHeader b, b.drop (4 * dataOffsetOf b))

/-- Well-formedness of a TCP header: ports and window fit in 16 bits,
sequence and acknowledgment numbers in 32 bits. -/
def TcpHeader.Wf (h : TcpHeader) : Prop :=
  h.src_port < 65536 ∧ h.dst_port < 65536 ∧ h.seq_num < 4294967296 ∧
  h.ack_num < 4294967296 ∧ h.window_size < 65536

instance (h : TcpHeader) : Decidable h.Wf := by
  unfold TcpHeader.Wf; infer_instance

/-! ## Connection state machine and engine

Modelled from the spec: the connection state machine (spec section 4.2),
engine (section 4.3) and scheduler integration (section 4.4) are not in
the repository excerpt; the definitions below follow the spec's transition
rules and the call sequences the test scaffold performs. -/

/-- TCP connection states. Modelled from the spec: section 4.2; the states
past `Established` are terminal/transitional stubs not exercised by the
handshake scenarios. -/
inductive TcpState where
  | Closed
  | Listen
  | SynSent
  | SynRcvd
  | Established
  | FinWait
  | CloseWait
  | Closing
  | LastAck
  | TimeWait
deriving DecidableEq, Repr

/-- Per-connection record. Modelled from the spec: current state, address
tuple, fixed initial sequence number, send/receive sequence bookkeeping,
and the segment awaiting transmission at the next scheduler poll. -/
structure Connection where
  state : TcpState
  localPort : Nat
  remoteMac : Nat
  remoteIp : Nat
  remotePort : Nat
  isn : Nat
  sndNxt : Nat
  rcvNxt : Nat
  pendingSeg : Option TcpHeader
  listenerFd : Option Nat
deriving DecidableEq, Repr

/-- Listener record. Modelled from the spec: bind port, backlog limit and
the queue of completed, not-yet-accepted connections. -/
structure Listener where
  port : Nat
  backlog : Nat
  readyQueue : List Nat
deriving DecidableEq, Repr

/-- State of one file descriptor in the engine's socket table. -/
inductive SocketState where
  | fresh
  | bound (port : Nat)
  | listener (l : Listener)
  | conn (c : Connection)
deriving DecidableEq, Repr

/-- Static per-engine configuration. Modelled from the spec: the local
link-layer and IPv4 addresses, the initial-sequence-number policy value
supplied to new connections, the ephemeral source port for active opens,
and the address-resolution table the runtime provides. -/
structure EngineConfig where
  localMac : Nat
  localIp : Nat
  isn : Nat
  ephemeralPort : Nat
  arp : List (Nat × Nat)
deriving DecidableEq, Repr

/-- engine state: socket table keyed by descriptor, next fresh descriptor,
FIFO outbound frame queue, and virtual clock. Modelled from the spec:
the Engine exclusively owns all connection and listener records. -/
structure Engine where
  cfg : EngineConfig
  sockets : List (Nat × SocketState)
  nextFd : Nat
  outbox : List (List Nat)
  clock : Nat
deriving DecidableEq, Repr

/-- First-match association lookup in the socket table. -/
def assocFind : List (Nat × SocketState) → Nat → Option SocketState
  | [], _ => none
  | (k, s) :: rest, fd => if k = fd then some s else assocFind rest fd

/-- Replace the first entry with the given key in the socket table. -/
def assocUpdate : List (Nat × SocketState) → Nat → SocketState →
    List (Nat × SocketState)
  | [], _, _ => []
  | (k, s) :: rest, fd, s' =>
    if k = fd then (k, s') :: rest else (k, s) :: assocUpdate rest fd s'

/-- Socket-table lookup by descriptor. -/
def lookupSock (e : Engine) (fd : Nat) : Option SocketState :=
  assocFind e.sockets fd

/-- Socket-table update by descriptor. -/
def updateSock (e : Engine) (fd : Nat) (s : SocketState) : Engine :=
  { e with sockets := assocUpdate e.sockets fd s }

/-- Address-resolution lookup (zero when unknown). -/
def arpLookup (cfg : EngineConfig) (ip : Nat) : Nat :=
  (Option.map (fun p => p.2) (cfg.arp.find? (fun p => p.1 == ip))).getD 0

/-- Allocate a fresh unbound socket descriptor. Modelled from the spec:
`socket()` allocates a new unbound/unconnected record. -/
def tcp_socket (e : Engine) : Engine × Nat :=
  ({ e with sockets := e.sockets ++ [(e.nextFd, .fresh)],
            nextFd := e.nextFd + 1 },
   e.nextFd)

/-- A port is already bound by some socket. -/
def portInUse (e : Engine) (port : Nat) : Bool :=
  e.sockets.any (fun p =>
    match p.2 with
    | .bound q => q == port
    | .listener l => l.port == port
    | _ => false)

/-- Bind a descriptor to a local port. Modelled from the spec: fails with
`AddressInUse` if the address is already bound, with `InvalidState` if the
descriptor is not fresh. -/
def tcp_bind (e : Engine) (fd port : Nat) : Except Fail Engine :=
  if portInUse e port then .error .addressInUse
  else
    match lookupSock e fd with
    | some .fresh => .ok (updateSock e fd (.bound port))
    | _ => .error .invalidState

/-- Move a bound descriptor into the LISTEN state with a backlog limit.
Modelled from the spec: `CLOSED --listen()--> LISTEN` performs no
transmission and records backlog capacity; fails with `InvalidState` if
the descriptor was not previously bound. -/
def tcp_listen (e : Engine) (fd backlog : Nat) : Except Fail Engine :=
  match lookupSock e fd with
  | some (.bound port) =>
    .ok (updateSock e fd (.listener { port := port, backlog := backlog,
                                      readyQueue := [] }))
  | _ => .error .invalidState

/-- Register an accept operation; the future handle is the listening
descriptor itself and registration changes no engine state. -/
def tcp_accept (fd : Nat) : Nat := fd

/-- The pure SYN emitted for an active open: sequence number equal to the
connection's initial sequence number, SYN set, ACK unset. Modelled from
the spec: `CLOSED --connect()--> SYN_SENT`. -/
def connectSyn (cfg : EngineConfig) (dstPort : Nat) : TcpHeader :=
  { src_port := cfg.ephemeralPort, dst_port := dstPort,
    seq_num := w32 cfg.isn, ack_num := 0, window_size := 65535,
    syn := true, ack := false, fin := false, rst := false, psh := false }

/-- The connection record created by an active open. -/
def connectConn (cfg : EngineConfig) (dstMac ip port : Nat) : Connection :=
  { state := .SynSent, localPort := cfg.ephemeralPort, remoteMac := dstMac,
    remoteIp := ip, remotePort := port, isn := w32 cfg.isn,
    sndNxt := w32 (cfg.isn + 1), rcvNxt := 0,
    pendingSeg := some (connectSyn cfg port), listenerFd := none }

/-- Begin an active open on a fresh descriptor. Modelled from the spec:
`connect()` creates the connection record in SYN_SENT with the pure SYN
pending; the frame itself is transmitted only by a scheduler poll. -/
def tcp_connect (e : Engine) (fd : Nat) (ip port : Nat) : Engine :=
  match lookupSock e fd with
  | some .fresh =>
    updateSock e fd (.conn (connectConn e.cfg (arpLookup e.cfg ip) ip port))
  | _ => e

/-- Clear a connection's pending segment after the scheduler emitted it. -/
def clearPending : SocketState → SocketState
  | .conn c => .conn { c with pendingSeg := none }
  | s => s

/-- Serialize one TCP segment of a connection into a full Ethernet frame. -/
def mkFrame (cfg : EngineConfig) (c : Connection) (h : TcpHeader) :
    List Nat :=
  Ethernet2Header.serialize
    { dst_addr := c.remoteMac, src_addr := cfg.localMac,
      ether_type := .Ipv4 }
    (Ipv4Header.serialize
      { src_addr := cfg.localIp, dst_addr := c.remoteIp, protocol := 6 }
      (TcpHeader.serialize
        { src_addr := cfg.localIp, dst_addr := c.remoteIp, protocol := 6 }
        h []))

/-- The frame a socket would emit at the next scheduler poll, if any. -/
def pendingFrame (cfg : EngineConfig) : SocketState → Option (List Nat)
  | .conn c => Option.map (mkFrame cfg c) c.pendingSeg
  | _ => none

/-- One scheduler poll: every pending segment is serialized and appended
to the outbound frame queue in socket-table order, and marked sent.
Modelled from the spec: the scheduler is the single driver of progress;
frames generated within one poll are appended in generation order. -/
def poll_scheduler (e : Engine) : Engine :=
  { e with
    sockets := e.sockets.map (fun p => (p.1, clearPending p.2)),
    outbox := e.outbox ++ e.sockets.filterMap (fun p => pendingFrame e.cfg p.2) }

/-- Drain one frame from the outbound FIFO. -/
def pop_frame (e : Engine) : Option (List Nat) × Engine :=
  match e.outbox with
  | [] => (none, e)
  | f :: rest => (some f, { e with outbox := rest })

/-- Advance the virtual clock. Modelled from the spec: the clock is
advanced externally and reading it is the engine's only time source. -/
def advance_clock (e : Engine) (t : Nat) : Engine := { e with clock := t }

/-- Decode an inbound frame through the three codecs, returning `none`
for anything the engine must drop: unparseable headers at any layer,
non-IPv4 ether type, or a destination address that is not ours. -/
def decodeFrame (cfg : EngineConfig) (f : List Nat) :
    Option (Ethernet2Header × Ipv4Header × TcpHeader × List Nat) :=
  match Ethernet2Header.parse f with
  | .error _ => none
  | .ok (eh, r1) =>
    if eh.ether_type ≠ .Ipv4 then none
    else
      match Ipv4Header.parse r1 with
      | .error _ => none
      | .ok (ih, r2) =>
        if ih.dst_addr ≠ cfg.localIp then none
        else
          match TcpHeader.parse ih r2 true with
          | .error _ => none
          | .ok (th, pl) => some (eh, ih, th, pl)

/-- A connection matches an inbound segment's address tuple. -/
def connMatches (c : Connection) (rip rport lport : Nat) : Bool :=
  c.remoteIp == rip && c.remotePort == rport && c.localPort == lport

/-- Demultiplex an inbound segment to the connection with the exact
tuple match, if any. -/
def demuxConn (e : Engine) (rip rport lport : Nat) : Option Nat :=
  Option.map (fun p => p.1)
    (e.sockets.find? (fun p =>
      match p.2 with
      | .conn c => connMatches c rip rport lport
      | _ => false))

/-- Demultiplex an inbound segment to a listener bound on its destination
port (wildcard source), if any. -/
def demuxListener (e : Engine) (port : Nat) : Option (Nat × Listener) :=
  match e.sockets.find? (fun p =>
    match p.2 with
    | .listener l => l.port == port
    | _ => false) with
  | some (fd, .listener l) => some (fd, l)
  | _ => none

/-- Number of SYN_RCVD children a listener currently holds. -/
def childCount (e : Engine) (lfd : Nat) : Nat :=
  (e.sockets.filter (fun p =>
    match p.2 with
    | .conn c => c.listenerFd == some lfd && c.state == .SynRcvd
    | _ => false)).length

/-- The SYN+ACK a passive open sends: sequence number equal to the server
initial sequence number, acknowledgment equal to the client sequence
number plus one, SYN and ACK both set. Modelled from the spec:
`LISTEN --receive(pure SYN)--> SYN_RCVD`. -/
def synAckReply (isn : Nat) (th : TcpHeader) : TcpHeader :=
  { src_port := th.dst_port, dst_port := th.src_port, seq_num := isn,
    ack_num := w32 (th.seq_num + 1), window_size := 65535,
    syn := true, ack := true, fin := false, rst := false, psh := false }

/-- The SYN_RCVD child connection record a listener spawns for an inbound
pure SYN: server ISN fixed, receive sequence tracking the client's SYN,
with the SYN+ACK pending for the next scheduler poll. -/
def spawnConn (cfg : EngineConfig) (lfd : Nat) (eh : Ethernet2Header)
    (ih : Ipv4Header) (th : TcpHeader) : Connection :=
  { state := .SynRcvd, localPort := th.dst_port,
    remoteMac := eh.src_addr, remoteIp := ih.src_addr,
    remotePort := th.src_port, isn := w32 cfg.isn,
    sndNxt := w32 (w32 cfg.isn + 1), rcvNxt := w32 (th.seq_num + 1),
    pendingSeg := some (synAckReply (w32 cfg.isn) th),
    listenerFd := some lfd }

/-- Spawn a SYN_RCVD child connection from a listener for an inbound pure
SYN under a fresh descriptor. -/
def spawnChild (e : Engine) (lfd : Nat) (eh : Ethernet2Header)
    (ih : Ipv4Header) (th : TcpHeader) : Engine :=
  { e with
    sockets := e.sockets ++ [(e.nextFd, .conn (spawnConn e.cfg lfd eh ih th))],
    nextFd := e.nextFd + 1 }

/-- The pure ACK an active open sends on receiving a valid SYN+ACK:
sequence number ISN+1, acknowledgment peer sequence number plus one, ACK
set, SYN unset. Modelled from the spec:
`SYN_SENT --receive(SYN+ACK) where ack_num == ISN+1--> ESTABLISHED`. -/
def estAckReply (c : Connection) (th : TcpHeader) : TcpHeader :=
  { src_port := c.localPort, dst_port := c.remotePort,
    seq_num := w32 (c.isn + 1), ack_num := w32 (th.seq_num + 1),
    window_size := 65535,
    syn := false, ack := true, fin := false, rst := false, psh := false }

/-- The RST sent when a SYN arrives on an ESTABLISHED connection.
Modelled from the spec: a SYN while ESTABLISHED is a protocol violation
answered by a reset and teardown. -/
def rstReply (c : Connection) : TcpHeader :=
  { src_port := c.localPort, dst_port := c.remotePort, seq_num := c.sndNxt,
    ack_num := 0, window_size := 65535,
    syn := false, ack := false, fin := false, rst := true, psh := false }

/-- Append a completed child to its listener's accept queue. -/
def appendReady (e : Engine) (lfd fd : Nat) : Engine :=
  match lookupSock e lfd with
  | some (.listener l) =>
    updateSock e lfd (.listener { l with readyQueue := l.readyQueue ++ [fd] })
  | _ => e

/-- Pure per-connection state transition for one delivered segment.
Modelled from the spec: the SYN_SENT handshake transition (any other
segment in SYN_SENT fails the connect, transitioning to CLOSED), the
SYN_RCVD completion on a matching pure ACK, and the ESTABLISHED-SYN
protocol-violation reset; later teardown states are stubs that ignore
input. -/
def connDeliver (c : Connection) (th : TcpHeader) : Connection :=
  match c.state with
  | .SynSent =>
    if th.syn && th.ack then
      if th.ack_num == w32 (c.isn + 1) then
        { c with state := .Established, rcvNxt := w32 (th.seq_num + 1),
                 sndNxt := w32 (c.isn + 1),
                 pendingSeg := some (estAckReply c th) }
      else { c with state := .Closed, pendingSeg := none }
    else { c with state := .Closed, pendingSeg := none }
  | .SynRcvd =>
    if th.ack && !th.syn && (th.ack_num == w32 (c.isn + 1)) then
      { c with state := .Established }
    else c
  | .Established =>
    if th.syn then
      { c with state := .Closed, pendingSeg := some (rstReply c) }
    else c
  | _ => c

/-- The delivered segment completes a passive-open handshake (the
connection moves from SYN_RCVD to ESTABLISHED and joins its listener's
accept queue). -/
def deliverCompletes (c : Connection) (th : TcpHeader) : Bool :=
  c.state == .SynRcvd && th.ack && !th.syn &&
    (th.ack_num == w32 (c.isn + 1))

/-- Deliver a demultiplexed segment to the connection at a descriptor:
the record is updated by the pure transition and, when the segment
completes a passive open, the connection is appended to its listener's
accept queue. -/
def deliverToConn (e : Engine) (fd : Nat) (th : TcpHeader) : Engine :=
  match lookupSock e fd with
  | some (.conn c) =>
    if deliverCompletes c th then
      match c.listenerFd with
      | some lfd =>
        appendReady (updateSock e fd (.conn (connDeliver c th))) lfd fd
      | none => updateSock e fd (.conn (connDeliver c th))
    else updateSock e fd (.conn (connDeliver c th))
  | _ => e

/-- The engine's single inbound entry point. Modelled from the spec:
codec-level failures and frames matching no record are absorbed (dropped
silently, never surfaced as an error); otherwise the payload is routed to
the exact tuple match or, absent one, a pure SYN to a listener on the
destination port spawns a SYN_RCVD child when backlog capacity remains
and is dropped silently otherwise. -/
def receive (e : Engine) (f : List Nat) : Except Fail Engine :=
  match decodeFrame e.cfg f with
  | none => .ok e
  | some (eh, ih, th, _) =>
    match demuxConn e ih.src_addr th.src_port th.dst_port with
    | some fd => .ok (deliverToConn e fd th)
    | none =>
      match demuxListener e th.dst_port with
      | some (lfd, l) =>
        if th.syn && !th.ack then
          if childCount e lfd + l.readyQueue.length < l.backlog then
            .ok (spawnChild e lfd eh ih th)
          else .ok e
        else .ok e
      | none => .ok e

/-- Poll a connect future: pending while SYN_SENT, success once
ESTABLISHED, `ConnectionRefused` when the handshake collapsed to CLOSED,
`InvalidState` when the descriptor holds no connection. -/
def poll_connect (e : Engine) (fd : Nat) : Option (Except Fail Unit) :=
  match lookupSock e fd with
  | some (.conn c) =>
    match c.state with
    | .SynSent => none
    | .Established => some (.ok ())
    | .Closed => some (.error .connectionRefused)
    | _ => none
  | _ => some (.error .invalidState)

/-- Poll an accept future: resolves with the oldest completed connection
in FIFO order, stays pending on an empty queue, and fails with
`InvalidState` on a non-listening descriptor. -/
def poll_accept (e : Engine) (fd : Nat) : Option (Except Fail Nat) × Engine :=
  match lookupSock e fd with
  | some (.listener l) =>
    match l.readyQueue with
    | [] => (none, e)
    | c :: rest =>
      (some (.ok c),
       updateSock e fd (.listener { l with readyQueue := rest }))
  | _ => (some (.error .invalidState), e)

/-- State of the connection at a descriptor, if one exists. -/
def connStateAt (e : Engine) (fd : Nat) : Option TcpState :=
  match lookupSock e fd with
  | some (.conn c) => some c.state
  | _ => none

/-- Initial sequence number of the connection at a descriptor of a socket
table. -/
def connIsnAtL (l : List (Nat × SocketState)) (fd : Nat) : Option Nat :=
  match assocFind l fd with
  | some (.conn c) => some c.isn
  | _ => none

/-- Initial sequence number of the connection at a descriptor. -/
def connIsnAt (e : Engine) (fd : Nat) : Option Nat :=
  connIsnAtL e.sockets fd

/-- Number of connection records in the socket table. -/
def connCount (e : Engine) : Nat :=
  (e.sockets.filter (fun p =>
    match p.2 with
    | .conn _ => true
    | _ => false)).length

/-- One externally observable engine step: a scheduler poll, a clock
advance, an inbound frame, or one of the socket calls. -/
inductive Event where
  | poll
  | clock (t : Nat)
  | rx (f : List Nat)
  | sock
  | bindEv (fd p : Nat)
  | listenEv (fd b : Nat)
  | connectEv (fd ip port : Nat)
  | acceptEv (fd : Nat)
  | popEv

/-- Apply one event to the engine (failed socket calls leave it as is). -/
def applyEvent (e : Engine) : Event → Engine
  | .poll => poll_scheduler e
  | .clock t => advance_clock e t
  | .rx f =>
    match receive e f with
    | .ok e' => e'
    | .error _ => e
  | .sock => (tcp_socket e).1
  | .bindEv fd p =>
    match tcp_bind e fd p with
    | .ok e' => e'
    | .error _ => e
  | .listenEv fd b =>
    match tcp_listen e fd b with
    | .ok e' => e'
    | .error _ => e
  | .connectEv fd ip port => tcp_connect e fd ip port
  | .acceptEv fd => (poll_accept e fd).2
  | .popEv => (pop_frame e).2

/-- Run a sequence of events. -/
def runEvents (e : Engine) (evs : List Event) : Engine :=
  evs.foldl applyEvent e

/-! ## Concrete test scenario

The addresses and wiring mirror the test scaffold: Alice is the active
opener (client), Bob the passive opener (server) listening on port 80.
Modelled from the spec: the concrete `test_helpers` constants are not in
the excerpt; distinct concrete addresses are chosen, with the initial
sequence number 0 the test scaffold asserts. -/

/-- The client MAC address of the test pair. -/
def ALICE_MAC : Nat := 0x010203040506

/-- The server MAC address of the test pair. -/
def BOB_MAC : Nat := 0x0a0b0c0d0e0f

/-- The client IPv4 address of the test pair. -/
def ALICE_IPV4 : Nat := 0xC0A80101

/-- The server IPv4 address of the test pair. -/
def BOB_IPV4 : Nat := 0xC0A80102

/-- Client engine configuration (ISN 0, as the test scaffold asserts). -/
def aliceCfg : EngineConfig :=
  { localMac := ALICE_MAC, localIp := ALICE_IPV4, isn := 0,
    ephemeralPort := 49152, arp := [(BOB_IPV4, BOB_MAC)] }

/-- Server engine configuration (ISN 0, as the test scaffold asserts). -/
def bobCfg : EngineConfig :=
  { localMac := BOB_MAC, localIp := BOB_IPV4, isn := 0,
    ephemeralPort := 49152, arp := [(ALICE_IPV4, ALICE_MAC)] }

/-- Fresh engine at virtual time 0. -/
def mkEngine (cfg : EngineConfig) : Engine :=
  { cfg := cfg, sockets := [], nextFd := 0, outbox := [], clock := 0 }

/-- Unwrap an engine-returning socket call that is expected to succeed. -/
def okOr (x : Except Fail Engine) (d : Engine) : Engine :=
  match x with
  | .ok e => e
  | .error _ => d

/-- Feed one inbound frame, keeping the engine on a receive error. -/
def rxOk (e : Engine) (f : List Nat) : Engine := okOr (receive e f) e

/-- T(0): server allocates its socket. -/
def srv0 : Engine := (tcp_socket (mkEngine bobCfg)).1

/-- T(0): server binds port 80. -/
def srv1 : Engine := okOr (tcp_bind srv0 0 80) srv0

/-- T(0): server listens with backlog 1. -/
def srv2 : Engine := okOr (tcp_listen srv1 0 1) srv1

/-- T(0): server polls the scheduler (LISTEN transmits nothing). -/
def srv3 : Engine := poll_scheduler srv2

/-- T(1): server after the first clock advance. -/
def srv4 : Engine := advance_clock srv3 1

/-- T(1): client after its socket allocation and the first clock advance. -/
def cli0 : Engine := advance_clock ((tcp_socket (mkEngine aliceCfg)).1) 1

/-- T(1): client issues the connect call. -/
def cli1 : Engine := tcp_connect cli0 0 BOB_IPV4 80

/-- T(1): client polls the scheduler, emitting the SYN. -/
def cli2 : Engine := poll_scheduler cli1

/-- The pure SYN frame of the scenario. -/
def synFrame : List Nat := (pop_frame cli2).1.getD []

/-- T(1): client after the SYN frame is drained. -/
def cli3 : Engine := (pop_frame cli2).2

/-- T(2): server after the second clock advance. -/
def srv5 : Engine := advance_clock srv4 2

/-- T(2): client after the second clock advance. -/
def cli4 : Engine := advance_clock cli3 2

/-- T(2): server receives the SYN, spawning the SYN_RCVD child. -/
def srv6 : Engine := rxOk srv5 synFrame

/-- T(2): server polls the scheduler, emitting the SYN+ACK. -/
def srv7 : Engine := poll_scheduler srv6

/-- The SYN+ACK frame of the scenario. -/
def synAckFrame : List Nat := (pop_frame srv7).1.getD []

/-- T(2): server after the SYN+ACK frame is drained. -/
def srv8 : Engine := (pop_frame srv7).2

/-- T(3): server after the third clock advance. -/
def srv9 : Engine := advance_clock srv8 3

/-- T(3): client after the third clock advance. -/
def cli5 : Engine := advance_clock cli4 3

/-- T(3): client receives the SYN+ACK, reaching ESTABLISHED. -/
def cli6 : Engine := rxOk cli5 synAckFrame

/-- T(3): client polls the scheduler, emitting the pure ACK. -/
def cli7 : Engine := poll_scheduler cli6

/-- The pure ACK frame of the scenario. -/
def ackFrame : List Nat := (pop_frame cli7).1.getD []

/-- T(3): final client engine of the scenario. -/
def cliFinal : Engine := (pop_frame cli7).2

/-- T(3): server receives the pure ACK, reaching ESTABLISHED. -/
def srv10 : Engine := rxOk srv9 ackFrame

/-- T(3): final server engine of the scenario. -/
def srvFinal : Engine := poll_scheduler srv10

/-- Parse a raw frame down to its TCP header through all three codecs
(with checksum validation), for stating frame-level observations. -/
def frameTcpHeader (f : List Nat) : Option TcpHeader :=
  match Ethernet2Header.parse f with
  | .error _ => none
  | .ok (_, r1) =>
    match Ipv4Header.parse r1 with
    | .error _ => none
    | .ok (ih, r2) =>
      match TcpHeader.parse ih r2 true with
      | .error _ => none
      | .ok (th, _) => some th

/-- Build a well-formed pure SYN frame addressed to the server, from a
given source (used for the backlog scenario). -/
def mkTestSyn (srcMac srcIp srcPort seqn : Nat) : List Nat :=
  Ethernet2Header.serialize
    { dst_addr := BOB_MAC, src_addr := srcMac, ether_type := .Ipv4 }
    (Ipv4Header.serialize
      { src_addr := srcIp, dst_addr := BOB_IPV4, protocol := 6 }
      (TcpHeader.serialize
        { src_addr := srcIp, dst_addr := BOB_IPV4, protocol := 6 }
        { src_port := srcPort, dst_port := 80, seq_num := seqn,
          ack_num := 0, window_size := 65535, syn := true, ack := false,
          fin := false, rst := false, psh := false } []))

/-- First SYN of the backlog scenario (client port 1000). -/
def synA : List Nat := mkTestSyn ALICE_MAC ALICE_IPV4 1000 100

/-- Second SYN of the backlog scenario (client port 2000). -/
def synB : List Nat := mkTestSyn ALICE_MAC ALICE_IPV4 2000 200

/-- Backlog scenario: the backlog-1 listener after the first SYN. -/
def bk1 : Engine := rxOk srv2 synA

/-- Backlog scenario: the engine after the second SYN arrives at
capacity. -/
def bk2 : Engine := rxOk bk1 synB

/-- An engine configuration identical to the client's except for a
nonzero initial sequence number. -/
def nzCfg : EngineConfig :=
  { localMac := ALICE_MAC, localIp := ALICE_IPV4, isn := 5,
    ephemeralPort := 49152, arp := [(BOB_IPV4, BOB_MAC)] }

/-- Client with ISN 5 after connect and one scheduler poll. -/
def nzCli : Engine :=
  poll_scheduler (tcp_connect ((tcp_socket (mkEngine nzCfg)).1) 0 BOB_IPV4 80)

/-- The SYN frame emitted by the ISN-5 client. -/
def nzSynFrame : List Nat := (pop_frame nzCli).1.getD []

/-! ## Concrete witness inputs

Concrete headers, segments and connection records used to instantiate the
universally quantified theorems below on explicit values. -/

def egEthW : Ethernet2Header :=
  { dst_addr := BOB_MAC, src_addr := ALICE_MAC, ether_type := .Ipv4 }

def egIpW : Ipv4Header :=
  { src_addr := ALICE_IPV4, dst_addr := BOB_IPV4, protocol := 6 }

def egTcpW : TcpHeader :=
  { src_port := 49152, dst_port := 80, seq_num := 7, ack_num := 3,
    window_size := 65535, syn := true, ack := false, fin := false,
    rst := false, psh := false }

def badCkSeg : List Nat := egTcpW.bodyBytes 1 []

def synAEth : Ethernet2Header :=
  { dst_addr := BOB_MAC, src_addr := ALICE_MAC, ether_type := .Ipv4 }

def synAIp : Ipv4Header :=
  { src_addr := ALICE_IPV4, dst_addr := BOB_IPV4, protocol := 6 }

def synATcp : TcpHeader :=
  { src_port := 1000, dst_port := 80, seq_num := 100, ack_num := 0,
    window_size := 65535, syn := true, ack := false, fin := false,
    rst := false, psh := false }

def synBTcp : TcpHeader :=
  { src_port := 2000, dst_port := 80, seq_num := 200, ack_num := 0,
    window_size := 65535, syn := true, ack := false, fin := false,
    rst := false, psh := false }

def synAckEthW : Ethernet2Header :=
  { dst_addr := ALICE_MAC, src_addr := BOB_MAC, ether_type := .Ipv4 }

def synAckIpW : Ipv4Header :=
  { src_addr := BOB_IPV4, dst_addr := ALICE_IPV4, protocol := 6 }

def synAckTcpW : TcpHeader :=
  { src_port := 80, dst_port := 49152, seq_num := 0, ack_num := 1,
    window_size := 65535, syn := true, ack := true, fin := false,
    rst := false, psh := false }

def cli5Conn : Connection :=
  { state := .SynSent, localPort := 49152, remoteMac := BOB_MAC,
    remoteIp := BOB_IPV4, remotePort := 80, isn := 0, sndNxt := 1,
    rcvNxt := 0, pendingSeg := none, listenerFd := none }

/-! ## Theorems -/

/-! ## Socket-table lemmas -/

lemma assocFind_append_left {l l2 : List (Nat × SocketState)} {fd : Nat}
    {x : SocketState} (h : assocFind l fd = some x) :
    assocFind (l ++ l2) fd = some x := by
  induction l with
  | nil => simp [assocFind] at h
  | cons p rest ih =>
    obtain ⟨k, s⟩ := p
    by_cases hk : k = fd
    · simp [assocFind, hk] at h ⊢
      exact h
    · simp [assocFind, hk] at h ⊢
      exact ih h

lemma assocFind_append_right {l : List (Nat × SocketState)} {fd : Nat}
    (s : SocketState) (h : assocFind l fd = none) :
    assocFind (l ++ [(fd, s)]) fd = some s := by
  induction l with
  | nil => simp [assocFind]
  | cons p rest ih =>
    obtain ⟨k, q⟩ := p
    by_cases hk : k = fd
    · simp [assocFind, hk] at h
    · simp [assocFind, hk] at h ⊢
      exact ih h

lemma assocFind_update_self {l : List (Nat × SocketState)} {fd : Nat}
    {s : SocketState} (s' : SocketState) (h : assocFind l fd = some s) :
    assocFind (assocUpdate l fd s') fd = some s' := by
  induction l with
  | nil => simp [assocFind] at h
  | cons p rest ih =>
    obtain ⟨k, q⟩ := p
    by_cases hk : k = fd
    · simp [assocFind, assocUpdate, hk]
    · simp [assocFind, assocUpdate, hk] at h ⊢
      exact ih h

lemma assocFind_update_ne {l : List (Nat × SocketState)} {fd fd' : Nat}
    (s' : SocketState) (h : fd ≠ fd') :
    assocFind (assocUpdate l fd' s') fd = assocFind l fd := by
  induction l with
  | nil => simp [assocFind, assocUpdate]
  | cons p rest ih =>
    obtain ⟨k, q⟩ := p
    by_cases hk : k = fd'
    · subst hk
      simp [assocFind, assocUpdate, Ne.symm h]
    · by_cases hf : k = fd
      · simp [assocFind, assocUpdate, hk, hf, h]
      · simp [assocFind, assocUpdate, hk, hf]
        exact ih

lemma assocFind_map (g : SocketState → SocketState)
    (l : List (Nat × SocketState)) (fd : Nat) :
    assocFind (l.map (fun p => (p.1, g p.2))) fd =
      Option.map g (assocFind l fd) := by
  induction l with
  | nil => simp [assocFind]
  | cons p rest ih =>
    obtain ⟨k, q⟩ := p
    by_cases hk : k = fd
    · simp [assocFind, hk]
    · simp [assocFind, hk]
      exact ih

lemma assocUpdate_mem {l : List (Nat × SocketState)} {fd : Nat}
    {s : SocketState} (s' : SocketState) (h : assocFind l fd = some s) :
    (fd, s') ∈ assocUpdate l fd s' := by
  induction l with
  | nil => simp [assocFind] at h
  | cons p rest ih =>
    obtain ⟨k, q⟩ := p
    by_cases hk : k = fd
    · subst hk
      simp [assocUpdate]
    · simp [assocFind, hk] at h
      simp [assocUpdate, hk]
      exact Or.inr (ih h)

lemma assocFind_mem {l : List (Nat × SocketState)} {fd : Nat}
    {s : SocketState} (h : assocFind l fd = some s) : (fd, s) ∈ l := by
  induction l with
  | nil => simp [assocFind] at h
  | cons p rest ih =>
    obtain ⟨k, q⟩ := p
    by_cases hk : k = fd
    · subst hk
      simp [assocFind] at h
      simp [h]
    · simp [assocFind, hk] at h
      simp
      exact Or.inr (ih h)

/-! ## Outbox preservation lemmas -/

lemma outbox_updateSock (e : Engine) (fd : Nat) (s : SocketState) :
    (updateSock e fd s).outbox = e.outbox := rfl

lemma outbox_appendReady (e : Engine) (lfd fd : Nat) :
    (appendReady e lfd fd).outbox = e.outbox := by
  unfold appendReady
  rcases lookupSock e lfd with _ | s
  · rfl
  · cases s <;> rfl

lemma outbox_deliver (e : Engine) (fd : Nat) (th : TcpHeader) :
    (deliverToConn e fd th).outbox = e.outbox := by
  unfold deliverToConn
  repeat' split
  all_goals first
    | rfl
    | (rw [outbox_appendReady]; rfl)

lemma receive_outbox {e e' : Engine} {f : List Nat}
    (h : receive e f = .ok e') : e'.outbox = e.outbox := by
  unfold receive at h
  split at h
  · injection h with h
    rw [← h]
  · split at h
    · injection h with h
      rw [← h]
      exact outbox_deliver ..
    · split at h
      · split at h
        · split at h
          · injection h with h
            rw [← h]
            rfl
          · injection h with h
            rw [← h]
        · injection h with h
          rw [← h]
      · injection h with h
        rw [← h]

/-! ## Initial-sequence-number preservation -/

lemma connDeliver_isn (c : Connection) (th : TcpHeader) :
    (connDeliver c th).isn = c.isn := by
  unfold connDeliver
  repeat' split
  all_goals rfl

lemma connIsnAtL_append {l l2 : List (Nat × SocketState)} {fd : Nat}
    {i : Nat} (h : connIsnAtL l fd = some i) :
    connIsnAtL (l ++ l2) fd = some i := by
  unfold connIsnAtL at h ⊢
  cases hl : assocFind l fd with
  | none => rw [hl] at h; simp at h
  | some s =>
    rw [assocFind_append_left hl]
    rw [hl] at h
    exact h

lemma connIsnAtL_clear (l : List (Nat × SocketState)) (fd : Nat) :
    connIsnAtL (l.map (fun p => (p.1, clearPending p.2))) fd =
      connIsnAtL l fd := by
  unfold connIsnAtL
  rw [assocFind_map]
  cases hl : assocFind l fd with
  | none => rfl
  | some s => cases s <;> simp [clearPending]

lemma connIsnAt_updateConn {e : Engine} {fd0 : Nat} {c0 : Connection}
    (c0' : Connection) (hl : lookupSock e fd0 = some (.conn c0))
    (hisn : c0'.isn = c0.isn) (fd : Nat) :
    connIsnAt (updateSock e fd0 (.conn c0')) fd = connIsnAt e fd := by
  unfold connIsnAt connIsnAtL updateSock lookupSock at *
  by_cases hfd : fd = fd0
  · subst hfd
    rw [assocFind_update_self _ hl, hl]
    simp [hisn]
  · simp only
    rw [assocFind_update_ne _ hfd]

lemma connIsnAt_updateNonConn {e : Engine} {fd0 : Nat} {s0 : SocketState}
    (s' : SocketState) (hl : lookupSock e fd0 = some s0)
    (hnc : ∀ c : Connection, s0 ≠ .conn c) {fd i : Nat}
    (hi : connIsnAt e fd = some i) :
    connIsnAt (updateSock e fd0 s') fd = some i := by
  unfold connIsnAt connIsnAtL updateSock lookupSock at *
  by_cases hfd : fd = fd0
  · subst hfd
    rw [hl] at hi
    cases s0 with
    | conn c => exact absurd rfl (hnc c)
    | fresh => simp at hi
    | bound p => simp at hi
    | listener l => simp at hi
  · simp only
    rw [assocFind_update_ne _ hfd]
    exact hi

lemma connIsnAt_appendReady (e : Engine) (lfd fd0 fd : Nat) {i : Nat}
    (hi : connIsnAt e fd = some i) :
    connIsnAt (appendReady e lfd fd0) fd = some i := by
  unfold appendReady
  rcases hl : lookupSock e lfd with _ | s
  · exact hi
  cases s with
  | fresh => exact hi
  | bound p => exact hi
  | conn c => exact hi
  | listener l =>
    exact connIsnAt_updateNonConn _ hl (fun c h => by cases h) hi

lemma connIsnAt_deliver (e : Engine) (fd0 : Nat) (th : TcpHeader)
    {fd i : Nat} (hi : connIsnAt e fd = some i) :
    connIsnAt (deliverToConn e fd0 th) fd = some i := by
  unfold deliverToConn
  rcases hl : lookupSock e fd0 with _ | s
  · exact hi
  cases s with
  | fresh => exact hi
  | bound p => exact hi
  | listener l => exact hi
  | conn c =>
    have hupd : connIsnAt (updateSock e fd0 (.conn (connDeliver c th))) fd = some i := by
      rw [connIsnAt_updateConn _ hl (connDeliver_isn c th) fd]
      exact hi
    by_cases hc : deliverCompletes c th
    · simp only [hc, if_true]
      cases c.listenerFd with
      | none => exact hupd
      | some lfd => exact connIsnAt_appendReady _ _ _ _ hupd
    · simp only [hc, if_false]
      exact hupd

lemma connIsnAt_spawn {e : Engine} (lfd : Nat) (eh : Ethernet2Header)
    (ih : Ipv4Header) (th : TcpHeader) {fd i : Nat}
    (hi : connIsnAt e fd = some i) :
    connIsnAt (spawnChild e lfd eh ih th) fd = some i := by
  unfold connIsnAt spawnChild at *
  exact connIsnAtL_append hi

lemma connIsnAt_receive {e e' : Engine} {f : List Nat}
    (h : receive e f = .ok e') {fd i : Nat} (hi : connIsnAt e fd = some i) :
    connIsnAt e' fd = some i := by
  unfold receive at h
  split at h
  · injection h with h
    rw [← h]
    exact hi
  · split at h
    · injection h with h
      rw [← h]
      exact connIsnAt_deliver _ _ _ hi
    · split at h
      · split at h
        · split at h
          · injection h with h
            rw [← h]
            exact connIsnAt_spawn _ _ _ _ hi
          · injection h with h
            rw [← h]
            exact hi
        · injection h with h
          rw [← h]
          exact hi
      · injection h with h
        rw [← h]
        exact hi

lemma connIsnAt_applyEvent {e : Engine} (ev : Event) {fd i : Nat}
    (hi : connIsnAt e fd = some i) :
    connIsnAt (applyEvent e ev) fd = some i := by
  cases ev with
  | poll =>
    simp only [applyEvent]
    unfold poll_scheduler connIsnAt at *
    simp only
    rw [connIsnAtL_clear]
    exact hi
  | clock t => exact hi
  | rx f =>
    simp only [applyEvent]
    cases hr : receive e f with
    | ok e2 => exact connIsnAt_receive hr hi
    | error fl => exact hi
  | sock =>
    simp only [applyEvent]
    unfold tcp_socket connIsnAt at *
    exact connIsnAtL_append hi
  | bindEv fd' p =>
    simp only [applyEvent]
    cases hb : tcp_bind e fd' p with
    | error fl => exact hi
    | ok e2 =>
      unfold tcp_bind at hb
      split at hb
      · exact absurd hb (by simp)
      · split at hb
        · rename_i hl
          injection hb with hb
          rw [← hb]
          exact connIsnAt_updateNonConn _ hl (fun c h => by cases h) hi
        · exact absurd hb (by simp)
  | listenEv fd' b =>
    simp only [applyEvent]
    cases hb : tcp_listen e fd' b with
    | error fl => exact hi
    | ok e2 =>
      unfold tcp_listen at hb
      split at hb
      · rename_i port hl
        injection hb with hb
        rw [← hb]
        exact connIsnAt_updateNonConn _ hl (fun c h => by cases h) hi
      · exact absurd hb (by simp)
  | connectEv fd' ip port =>
    simp only [applyEvent]
    unfold tcp_connect
    split
    · rename_i hl
      exact connIsnAt_updateNonConn _ hl (fun c h => by cases h) hi
    · exact hi
  | acceptEv fd' =>
    simp only [applyEvent]
    unfold poll_accept
    rcases hl : lookupSock e fd' with _ | s
    · exact hi
    cases s with
    | fresh => exact hi
    | bound p => exact hi
    | conn c => exact hi
    | listener l =>
      obtain ⟨port, backlog, rq⟩ := l
      cases rq with
      | nil => exact hi
      | cons q rest =>
        exact connIsnAt_updateNonConn _ hl (fun c h => by cases h) hi
  | popEv =>
    simp only [applyEvent]
    unfold pop_frame
    cases e.outbox with
    | nil => exact hi
    | cons fr rest => exact hi

lemma connIsnAt_runEvents {e : Engine} (evs : List Event) {fd i : Nat}
    (hi : connIsnAt e fd = some i) :
    connIsnAt (runEvents e evs) fd = some i := by
  induction evs generalizing e with
  | nil => exact hi
  | cons ev rest ihr => exact ihr (connIsnAt_applyEvent ev hi)

/-! ## Codec round-trip lemmas -/

lemma eth_roundtrip (h : Ethernet2Header) (p : List Nat) (hw : h.Wf) :
    Ethernet2Header.parse (h.serialize p) = .ok (h, p) := by
  obtain ⟨d, s, t⟩ := h
  obtain ⟨hd, hs⟩ := hw
  simp only [Ethernet2Header.Wf] at hd hs
  have hlen : (Ethernet2Header.serialize ⟨d, s, t⟩ p).length = 14 + p.length := by
    simp [Ethernet2Header.serialize, macb, u16b]
    omega
  unfold Ethernet2Header.parse
  rw [if_neg (by omega)]
  have hcode : rd16 (Ethernet2Header.serialize ⟨d, s, t⟩ p) 12 = etherTypeCode t := by
    show 256 * (etherTypeCode t / 256 % 256) + etherTypeCode t % 256 = etherTypeCode t
    cases t <;> decide
  rw [hcode]
  have hdec : etherTypeOfCode (etherTypeCode t) = some t := by cases t <;> decide
  rw [hdec]
  have hdst : rd48 (Ethernet2Header.serialize ⟨d, s, t⟩ p) 0 = d := by
    show 1099511627776 * (d / 1099511627776 % 256) + 4294967296 * (d / 4294967296 % 256) +
      16777216 * (d / 16777216 % 256) + 65536 * (d / 65536 % 256) +
      256 * (d / 256 % 256) + d % 256 = d
    omega
  have hsrc : rd48 (Ethernet2Header.serialize ⟨d, s, t⟩ p) 6 = s := by
    show 1099511627776 * (s / 1099511627776 % 256) + 4294967296 * (s / 4294967296 % 256) +
      16777216 * (s / 16777216 % 256) + 65536 * (s / 65536 % 256) +
      256 * (s / 256 % 256) + s % 256 = s
    omega
  have hdrop : (Ethernet2Header.serialize ⟨d, s, t⟩ p).drop 14 = p := rfl
  rw [hdst, hsrc, hdrop]

lemma ipv4_roundtrip (h : Ipv4Header) (p : List Nat) (hw : h.Wf)
    (hp : p.length ≤ 65515) :
    Ipv4Header.parse (h.serialize p) = .ok (h, p) := by
  obtain ⟨sa, da, pr⟩ := h
  obtain ⟨hsa, hda, hpr⟩ := hw
  simp only at hsa hda hpr
  subst hpr
  have hlen : (Ipv4Header.serialize ⟨sa, da, 6⟩ p).length = 20 + p.length := by
    simp [Ipv4Header.serialize, Ipv4Header.bodyBytes, u16b, u32b]
    omega
  unfold Ipv4Header.parse
  rw [if_neg (by omega)]
  have hb0 : byteAt (Ipv4Header.serialize ⟨sa, da, 6⟩ p) 0 = 69 := rfl
  rw [if_neg (by rw [hb0]; omega)]
  have h2 : rd16 (Ipv4Header.serialize ⟨sa, da, 6⟩ p) 2 = 20 + p.length := by
    show 256 * ((20 + p.length) / 256 % 256) + (20 + p.length) % 256 = 20 + p.length
    omega
  rw [if_neg (by rw [h2, hlen]; omega)]
  have hb9 : byteAt (Ipv4Header.serialize ⟨sa, da, 6⟩ p) 9 = 6 := rfl
  rw [if_neg (by rw [hb9]; omega)]
  have hckle : ipv4Checksum (Ipv4Header.bodyBytes ⟨sa, da, 6⟩ (20 + p.length) 0) ≤ 65535 :=
    Nat.sub_le _ _
  have hrd10 : rd16 (Ipv4Header.serialize ⟨sa, da, 6⟩ p) 10 =
      256 * (ipv4Checksum (Ipv4Header.bodyBytes ⟨sa, da, 6⟩ (20 + p.length) 0) / 256 % 256) +
      ipv4Checksum (Ipv4Header.bodyBytes ⟨sa, da, 6⟩ (20 + p.length) 0) % 256 := rfl
  have hckeq : ipv4Checksum ((Ipv4Header.serialize ⟨sa, da, 6⟩ p).take 20) =
      ipv4Checksum (Ipv4Header.bodyBytes ⟨sa, da, 6⟩ (20 + p.length) 0) := rfl
  rw [if_neg (by rw [hckeq, hrd10]; omega)]
  have hsrc : rd32 (Ipv4Header.serialize ⟨sa, da, 6⟩ p) 12 = sa := by
    show 16777216 * (sa / 16777216 % 256) + 65536 * (sa / 65536 % 256) +
      256 * (sa / 256 % 256) + sa % 256 = sa
    omega
  have hdst : rd32 (Ipv4Header.serialize ⟨sa, da, 6⟩ p) 16 = da := by
    show 16777216 * (da / 16777216 % 256) + 65536 * (da / 65536 % 256) +
      256 * (da / 256 % 256) + da % 256 = da
    omega
  have hdrop : (Ipv4Header.serialize ⟨sa, da, 6⟩ p).drop 20 = p := rfl
  rw [hsrc, hdst, hb9, hdrop]

lemma tcp_roundtrip (ih : Ipv4Header) (h : TcpHeader) (p : List Nat)
    (hw : h.Wf) :
    TcpHeader.parse ih (TcpHeader.serialize ih h p) true = .ok (h, p) := by
  obtain ⟨sp, dp, sq, ak, ws, sy, ac, fi, rs, ps⟩ := h
  obtain ⟨hsp, hdp, hsq, hak, hws⟩ := hw
  simp only at hsp hdp hsq hak hws
  have hlen : (TcpHeader.serialize ih ⟨sp, dp, sq, ak, ws, sy, ac, fi, rs, ps⟩ p).length =
      20 + p.length := by
    simp [TcpHeader.serialize, TcpHeader.bodyBytes, u16b, u32b]
    omega
  have h12 : byteAt (TcpHeader.serialize ih ⟨sp, dp, sq, ak, ws, sy, ac, fi, rs, ps⟩ p) 12 = 80 := rfl
  have hoff : dataOffsetOf (TcpHeader.serialize ih ⟨sp, dp, sq, ak, ws, sy, ac, fi, rs, ps⟩ p) = 5 := by
    unfold dataOffsetOf
    rw [h12]
  unfold TcpHeader.parse
  rw [if_neg (by omega)]
  rw [if_neg (by unfold tcpLenFieldMismatch; rw [hoff, hlen]; omega)]
  have hckeq : tcpChecksum ih (zeroTcpCk (TcpHeader.serialize ih ⟨sp, dp, sq, ak, ws, sy, ac, fi, rs, ps⟩ p)) =
      tcpChecksum ih (TcpHeader.bodyBytes ⟨sp, dp, sq, ak, ws, sy, ac, fi, rs, ps⟩ 0 p) := rfl
  have hckle : tcpChecksum ih (TcpHeader.bodyBytes ⟨sp, dp, sq, ak, ws, sy, ac, fi, rs, ps⟩ 0 p) ≤ 65535 :=
    Nat.sub_le _ _
  have hrd16 : rd16 (TcpHeader.serialize ih ⟨sp, dp, sq, ak, ws, sy, ac, fi, rs, ps⟩ p) 16 =
      256 * (tcpChecksum ih (TcpHeader.bodyBytes ⟨sp, dp, sq, ak, ws, sy, ac, fi, rs, ps⟩ 0 p) / 256 % 256) +
      tcpChecksum ih (TcpHeader.bodyBytes ⟨sp, dp, sq, ak, ws, sy, ac, fi, rs, ps⟩ 0 p) % 256 := rfl
  rw [if_neg (by
    intro hcon
    rcases hcon with ⟨-, hne⟩
    rw [hckeq, hrd16] at hne
    omega)]
  rw [hoff]
  have hdrop : (TcpHeader.serialize ih ⟨sp, dp, sq, ak, ws, sy, ac, fi, rs, ps⟩ p).drop (4 * 5) = p := rfl
  rw [hdrop]
  have h13 : byteAt (TcpHeader.serialize ih ⟨sp, dp, sq, ak, ws, sy, ac, fi, rs, ps⟩ p) 13 =
      (if fi then 1 else 0) + 2 * (if sy then 1 else 0) + 4 * (if rs then 1 else 0) +
      8 * (if ps then 1 else 0) + 16 * (if ac then 1 else 0) := rfl
  have hhdr : readTcpHeader (TcpHeader.serialize ih ⟨sp, dp, sq, ak, ws, sy, ac, fi, rs, ps⟩ p) =
      ⟨sp, dp, sq, ak, ws, sy, ac, fi, rs, ps⟩ := by
    unfold readTcpHeader
    rw [h13]
    simp only [TcpHeader.mk.injEq]
    refine ⟨?_, ?_, ?_, ?_, ?_, ?_, ?_, ?_, ?_, ?_⟩
    · show 256 * (sp / 256 % 256) + sp % 256 = sp
      omega
    · show 256 * (dp / 256 % 256) + dp % 256 = dp
      omega
    · show 16777216 * (sq / 16777216 % 256) + 65536 * (sq / 65536 % 256) +
        256 * (sq / 256 % 256) + sq % 256 = sq
      omega
    · show 16777216 * (ak / 16777216 % 256) + 65536 * (ak / 65536 % 256) +
        256 * (ak / 256 % 256) + ak % 256 = ak
      omega
    · show 256 * (ws / 256 % 256) + ws % 256 = ws
      omega
    · cases sy <;> cases ac <;> cases fi <;> cases rs <;> cases ps <;> decide
    · cases sy <;> cases ac <;> cases fi <;> cases rs <;> cases ps <;> decide
    · cases sy <;> cases ac <;> cases fi <;> cases rs <;> cases ps <;> decide
    · cases sy <;> cases ac <;> cases fi <;> cases rs <;> cases ps <;> decide
    · cases sy <;> cases ac <;> cases fi <;> cases rs <;> cases ps <;> decide
  rw [hhdr]

/-! ## Witness inputs -/

/-- C1: end-to-end scenario at T0 = 0: the three-way handshake between the
client and the server listening on port 80 completes by T0+3 clock ticks
(one tick per leg), both the connect and the matching accept future
resolve with success, and both resulting connection descriptors are in
the ESTABLISHED state. -/
theorem c1_three_way_handshake_completes :
    connStateAt cliFinal 0 = some .Established ∧
    connStateAt srvFinal 1 = some .Established ∧
    poll_connect cliFinal 0 = some (.ok ()) ∧
    (poll_accept srvFinal 0).1 = some (.ok 1) ∧
    (mkEngine aliceCfg).clock = 0 ∧ (mkEngine bobCfg).clock = 0 ∧
    cliFinal.clock = 3 ∧ srvFinal.clock = 3 := by decide

/-- C2: for every valid header and payload, parsing the serialization
yields back exactly the original pair, for each of the Ethernet-II, IPv4
and TCP codecs. -/
theorem c2_parse_serialize_roundtrip :
    (∀ (h : Ethernet2Header) (p : List Nat), h.Wf →
      Ethernet2Header.parse (h.serialize p) = .ok (h, p)) ∧
    (∀ (h : Ipv4Header) (p : List Nat), h.Wf → p.length ≤ 65515 →
      Ipv4Header.parse (h.serialize p) = .ok (h, p)) ∧
    (∀ (ih : Ipv4Header) (h : TcpHeader) (p : List Nat), h.Wf →
      TcpHeader.parse ih (TcpHeader.serialize ih h p) true = .ok (h, p)) :=
  ⟨fun h p hw => eth_roundtrip h p hw,
   fun h p hw hp => ipv4_roundtrip h p hw hp,
   fun ih h p hw => tcp_roundtrip ih h p hw⟩

theorem c2_parse_serialize_roundtrip_witness :
    egEthW.Wf ∧ egIpW.Wf ∧ egTcpW.Wf ∧
    Ethernet2Header.parse (egEthW.serialize [1, 2, 3]) = .ok (egEthW, [1, 2, 3]) ∧
    Ipv4Header.parse (egIpW.serialize [9, 9]) = .ok (egIpW, [9, 9]) ∧
    TcpHeader.parse egIpW (TcpHeader.serialize egIpW egTcpW [5, 6, 7]) true =
      .ok (egTcpW, [5, 6, 7]) :=
  ⟨by decide, by decide, by decide,
   c2_parse_serialize_roundtrip.1 egEthW [1, 2, 3] (by decide),
   c2_parse_serialize_roundtrip.2.1 egIpW [9, 9] (by decide) (by decide),
   c2_parse_serialize_roundtrip.2.2 egIpW egTcpW [5, 6, 7] (by decide)⟩

/-- C6: header parse fails with MalformedHeader under the spec's
conditions: too-short buffers at every codec, an IPv4 total-length field
disagreeing with the buffer, an IPv4 checksum failure; and for TCP the
failure conditions are exactly a too-short buffer, a data-offset length
field disagreeing with the buffer, or a checksum failure when checksum
validation (a boolean parameter) is enabled; with validation disabled a
segment with an unchecked checksum still parses successfully. -/
theorem c6_malformed_header_conditions :
    (∀ b : List Nat, b.length < 14 →
      Ethernet2Header.parse b = .error .malformedHeader) ∧
    (∀ b : List Nat, b.length < 20 →
      Ipv4Header.parse b = .error .malformedHeader) ∧
    (∀ b : List Nat, rd16 b 2 ≠ b.length →
      Ipv4Header.parse b = .error .malformedHeader) ∧
    (∀ b : List Nat, ipv4Checksum (b.take 20) ≠ rd16 b 10 →
      Ipv4Header.parse b = .error .malformedHeader) ∧
    (∀ (ih : Ipv4Header) (b : List Nat) (ck : Bool),
      TcpHeader.parse ih b ck = .error .malformedHeader ↔
        (b.length < 20 ∨ tcpLenFieldMismatch b ∨
          (ck = true ∧ tcpChecksum ih (zeroTcpCk b) ≠ rd16 b 16))) ∧
    (∀ (ih : Ipv4Header) (b : List Nat),
      (TcpHeader.parse ih b false).isOk = true ↔
        ¬(b.length < 20 ∨ tcpLenFieldMismatch b)) := by
  refine ⟨?_, ?_, ?_, ?_, ?_, ?_⟩
  · intro b h
    unfold Ethernet2Header.parse
    rw [if_pos h]
  · intro b h
    unfold Ipv4Header.parse
    rw [if_pos h]
  · intro b h
    unfold Ipv4Header.parse
    split_ifs <;> rfl
  · intro b h
    unfold Ipv4Header.parse
    split_ifs <;> rfl
  · intro ih b ck
    unfold TcpHeader.parse
    by_cases h1 : b.length < 20
    · rw [if_pos h1]
      simp [h1]
    · rw [if_neg h1]
      by_cases h2 : tcpLenFieldMismatch b
      · rw [if_pos h2]
        simp [h1, h2]
      · rw [if_neg h2]
        by_cases h3 : ck = true ∧ tcpChecksum ih (zeroTcpCk b) ≠ rd16 b 16
        · rw [if_pos h3]
          simp [h1, h2, h3]
        · rw [if_neg h3]
          simp [h1, h2, h3]
  · intro ih b
    unfold TcpHeader.parse
    by_cases h1 : b.length < 20
    · rw [if_pos h1]
      simp [h1, Except.isOk, Except.toBool]
    · rw [if_neg h1]
      by_cases h2 : tcpLenFieldMismatch b
      · rw [if_pos h2]
        simp [h1, h2, Except.isOk, Except.toBool]
      · rw [if_neg h2]
        rw [if_neg (by simp)]
        simp [h1, h2, Except.isOk, Except.toBool]

theorem c6_malformed_header_conditions_witness :
    Ethernet2Header.parse [1, 2, 3] = .error .malformedHeader ∧
    Ipv4Header.parse [1, 2, 3] = .error .malformedHeader ∧
    TcpHeader.parse egIpW badCkSeg true = .error .malformedHeader ∧
    (TcpHeader.parse egIpW badCkSeg false).isOk = true :=
  ⟨c6_malformed_header_conditions.1 [1, 2, 3] (by decide),
   c6_malformed_header_conditions.2.1 [1, 2, 3] (by decide),
   (c6_malformed_header_conditions.2.2.2.2.1 egIpW badCkSeg true).2 (by decide),
   (c6_malformed_header_conditions.2.2.2.2.2 egIpW badCkSeg).2 (by decide)⟩

/-- C10 (amended): the initial sequence number is the engine's configured
ISN policy value, not 0 in general; in the test configuration, which uses
ISN 0 on both sides, the client's SYN and the server's SYN+ACK carry
sequence number 0 and the handshake acknowledgments carry 1. -/
theorem c10_isn_zero_in_test_config :
    Option.map TcpHeader.seq_num (frameTcpHeader synFrame) = some 0 ∧
    Option.map TcpHeader.syn (frameTcpHeader synFrame) = some true ∧
    Option.map TcpHeader.seq_num (frameTcpHeader synAckFrame) = some 0 ∧
    Option.map TcpHeader.ack_num (frameTcpHeader synAckFrame) = some 1 ∧
    Option.map TcpHeader.syn (frameTcpHeader synAckFrame) = some true ∧
    Option.map TcpHeader.ack (frameTcpHeader synAckFrame) = some true ∧
    Option.map TcpHeader.seq_num (frameTcpHeader ackFrame) = some 1 ∧
    Option.map TcpHeader.ack_num (frameTcpHeader ackFrame) = some 1 := by decide

/-- C10 counterexample: an engine configured with initial sequence number
5 emits a SYN whose sequence number is 5, not 0, refuting the claim that
every new connection's SYN carries sequence number 0. -/
theorem c10_counterexample_nonzero_isn :
    Option.map TcpHeader.syn (frameTcpHeader nzSynFrame) = some true ∧
    Option.map TcpHeader.seq_num (frameTcpHeader nzSynFrame) = some 5 ∧
    Option.map TcpHeader.seq_num (frameTcpHeader nzSynFrame) ≠ some 0 := by decide

lemma receive_ok (e : Engine) (f : List Nat) :
    ∃ e' : Engine, receive e f = .ok e' := by
  unfold receive
  repeat' split
  all_goals exact ⟨_, rfl⟩

/-- C7: inbound frames that fail at the codec layer (or match nothing)
never surface an error to the caller of `receive` and never enqueue a
response: `receive` always returns success, never touches the outbound
queue, and on any frame the decoder rejects it leaves the engine
entirely unchanged. -/
theorem c7_codec_failures_absorbed :
    (∀ (e : Engine) (f : List Nat), ∃ e' : Engine,
      receive e f = .ok e' ∧ e'.outbox = e.outbox) ∧
    (∀ (e : Engine) (f : List Nat), decodeFrame e.cfg f = none →
      receive e f = .ok e) := by
  constructor
  · intro e f
    obtain ⟨e', hr⟩ := receive_ok e f
    exact ⟨e', hr, receive_outbox hr⟩
  · intro e f h
    unfold receive
    rw [h]

theorem c7_codec_failures_absorbed_witness :
    receive (mkEngine bobCfg) [1, 2, 3] = .ok (mkEngine bobCfg) :=
  c7_codec_failures_absorbed.2 (mkEngine bobCfg) [1, 2, 3] (by decide)

/-- C8: nothing is transmitted without an explicit scheduler poll: no
socket call, inbound frame, future poll or clock advance changes the
outbound frame queue (and a clock advance changes no socket state at
all); only `poll_scheduler` appends frames, extending the queue by
zero or more frames in order. -/
theorem c8_transmission_only_on_poll :
    (∀ e : Engine, ((tcp_socket e).1).outbox = e.outbox) ∧
    (∀ (e : Engine) (fd p : Nat) (e' : Engine),
      tcp_bind e fd p = .ok e' → e'.outbox = e.outbox) ∧
    (∀ (e : Engine) (fd b : Nat) (e' : Engine),
      tcp_listen e fd b = .ok e' → e'.outbox = e.outbox) ∧
    (∀ (e : Engine) (fd ip port : Nat),
      (tcp_connect e fd ip port).outbox = e.outbox) ∧
    (∀ (e : Engine) (f : List Nat) (e' : Engine),
      receive e f = .ok e' → e'.outbox = e.outbox) ∧
    (∀ (e : Engine) (t : Nat), (advance_clock e t).outbox = e.outbox ∧
      (advance_clock e t).sockets = e.sockets) ∧
    (∀ (e : Engine) (fd : Nat), ((poll_accept e fd).2).outbox = e.outbox) ∧
    (∀ e : Engine, ∃ new : List (List Nat),
      (poll_scheduler e).outbox = e.outbox ++ new) := by
  refine ⟨fun e => rfl, ?_, ?_, ?_, fun e f e' h => receive_outbox h,
          fun e t => ⟨rfl, rfl⟩, ?_, fun e => ⟨_, rfl⟩⟩
  · intro e fd p e' h
    unfold tcp_bind at h
    split at h
    · exact absurd h (by simp)
    · split at h
      · injection h with h
        rw [← h]
        rfl
      · exact absurd h (by simp)
  · intro e fd b e' h
    unfold tcp_listen at h
    split at h
    · injection h with h
      rw [← h]
      rfl
    · exact absurd h (by simp)
  · intro e fd ip port
    unfold tcp_connect
    split
    · rfl
    · rfl
  · intro e fd
    unfold poll_accept
    rcases lookupSock e fd with _ | s
    · rfl
    cases s with
    | fresh => rfl
    | bound p => rfl
    | conn c => rfl
    | listener l =>
      obtain ⟨port, backlog, rq⟩ := l
      cases rq with
      | nil => rfl
      | cons q rest => rfl

theorem c8_transmission_only_on_poll_witness :
    srv1.outbox = srv0.outbox ∧ bk1.outbox = srv2.outbox :=
  ⟨c8_transmission_only_on_poll.2.1 srv0 0 80 srv1 (by decide),
   c8_transmission_only_on_poll.2.2.2.2.1 srv2 synA bk1 (by decide)⟩

/-- C3: an active open on a fresh descriptor creates the SYN_SENT
connection whose initial sequence number equals the engine's configured
ISN; the pending pure SYN carries that ISN as its sequence number with
SYN set and ACK unset, the scheduler poll emits exactly that segment's
frame, and the connection's ISN never changes over any later sequence of
engine events. -/
theorem c3_syn_carries_fixed_isn (e : Engine) (fd ip port : Nat)
    (hfresh : lookupSock e fd = some .fresh) :
    ∃ c : Connection,
      lookupSock (tcp_connect e fd ip port) fd = some (.conn c) ∧
      c.state = .SynSent ∧
      c.isn = w32 e.cfg.isn ∧
      c.pendingSeg = some (connectSyn e.cfg port) ∧
      (connectSyn e.cfg port).seq_num = c.isn ∧
      (connectSyn e.cfg port).syn = true ∧
      (connectSyn e.cfg port).ack = false ∧
      mkFrame e.cfg c (connectSyn e.cfg port) ∈
        (poll_scheduler (tcp_connect e fd ip port)).outbox ∧
      (∀ (evs : List Event) (c' : Connection),
        lookupSock (runEvents (tcp_connect e fd ip port) evs) fd =
          some (.conn c') → c'.isn = w32 e.cfg.isn) := by
  have hconn : tcp_connect e fd ip port =
      updateSock e fd (.conn (connectConn e.cfg (arpLookup e.cfg ip) ip port)) := by
    unfold tcp_connect
    rw [hfresh]
  refine ⟨connectConn e.cfg (arpLookup e.cfg ip) ip port, ?_, rfl, rfl, rfl,
          rfl, rfl, rfl, ?_, ?_⟩
  · rw [hconn]
    exact assocFind_update_self _ hfresh
  · rw [hconn]
    unfold poll_scheduler
    simp only
    apply List.mem_append_right
    rw [List.mem_filterMap]
    refine ⟨(fd, .conn (connectConn e.cfg (arpLookup e.cfg ip) ip port)), ?_, rfl⟩
    exact assocUpdate_mem _ hfresh
  · intro evs c' hc'
    have hstart : connIsnAt (tcp_connect e fd ip port) fd = some (w32 e.cfg.isn) := by
      rw [hconn]
      unfold connIsnAt connIsnAtL updateSock
      simp only
      rw [assocFind_update_self _ hfresh]
      rfl
    have hrun := connIsnAt_runEvents evs hstart
    unfold connIsnAt connIsnAtL at hrun
    unfold lookupSock at hc'
    rw [hc'] at hrun
    simp at hrun
    exact hrun

theorem c3_syn_carries_fixed_isn_witness :
    lookupSock ((tcp_socket (mkEngine aliceCfg)).1) 0 = some .fresh ∧
    (∃ c : Connection,
      lookupSock (tcp_connect ((tcp_socket (mkEngine aliceCfg)).1) 0 BOB_IPV4 80) 0 =
        some (.conn c) ∧
      c.state = .SynSent ∧
      c.isn = w32 aliceCfg.isn ∧
      c.pendingSeg = some (connectSyn aliceCfg 80) ∧
      (connectSyn aliceCfg 80).seq_num = c.isn ∧
      (connectSyn aliceCfg 80).syn = true ∧
      (connectSyn aliceCfg 80).ack = false ∧
      mkFrame aliceCfg c (connectSyn aliceCfg 80) ∈
        (poll_scheduler (tcp_connect ((tcp_socket (mkEngine aliceCfg)).1) 0 BOB_IPV4 80)).outbox ∧
      (∀ (evs : List Event) (c' : Connection),
        lookupSock (runEvents (tcp_connect ((tcp_socket (mkEngine aliceCfg)).1) 0 BOB_IPV4 80) evs) 0 =
          some (.conn c') → c'.isn = w32 aliceCfg.isn)) :=
  ⟨by decide,
   c3_syn_carries_fixed_isn ((tcp_socket (mkEngine aliceCfg)).1) 0 BOB_IPV4 80 (by decide)⟩

/-- C4: a pure SYN reaching a listener with backlog capacity spawns a
SYN_RCVD child whose pending SYN+ACK carries sequence number equal to
the server's initial sequence number, acknowledgment number equal to the
client's sequence number plus one (mod 2^32), and both SYN and ACK set;
the scheduler poll emits exactly that segment's frame. -/
theorem c4_syn_ack_fields (e : Engine) (f : List Nat)
    (eh : Ethernet2Header) (ih : Ipv4Header) (th : TcpHeader)
    (pl : List Nat) (lfd : Nat) (l : Listener)
    (hdec : decodeFrame e.cfg f = some (eh, ih, th, pl))
    (hsyn : th.syn = true) (hack : th.ack = false)
    (hnoconn : demuxConn e ih.src_addr th.src_port th.dst_port = none)
    (hlis : demuxListener e th.dst_port = some (lfd, l))
    (hcap : childCount e lfd + l.readyQueue.length < l.backlog)
    (hnew : lookupSock e e.nextFd = none) :
    receive e f = .ok (spawnChild e lfd eh ih th) ∧
    lookupSock (spawnChild e lfd eh ih th) e.nextFd =
      some (.conn (spawnConn e.cfg lfd eh ih th)) ∧
    (spawnConn e.cfg lfd eh ih th).state = .SynRcvd ∧
    (spawnConn e.cfg lfd eh ih th).pendingSeg =
      some (synAckReply (w32 e.cfg.isn) th) ∧
    (synAckReply (w32 e.cfg.isn) th).seq_num = w32 e.cfg.isn ∧
    (synAckReply (w32 e.cfg.isn) th).ack_num = w32 (th.seq_num + 1) ∧
    (synAckReply (w32 e.cfg.isn) th).syn = true ∧
    (synAckReply (w32 e.cfg.isn) th).ack = true ∧
    mkFrame e.cfg (spawnConn e.cfg lfd eh ih th)
        (synAckReply (w32 e.cfg.isn) th) ∈
      (poll_scheduler (spawnChild e lfd eh ih th)).outbox := by
  refine ⟨?_, ?_, rfl, rfl, rfl, rfl, rfl, rfl, ?_⟩
  · unfold receive
    simp only [hdec, hnoconn, hlis, hsyn, hack, Bool.not_false, Bool.and_self]
    simp [hcap]
  · unfold spawnChild lookupSock
    simp only
    exact assocFind_append_right _ hnew
  · unfold poll_scheduler spawnChild
    simp only
    apply List.mem_append_right
    rw [List.filterMap_append]
    apply List.mem_append_right
    simp [pendingFrame, spawnConn]

theorem c4_syn_ack_fields_witness :
    receive srv2 synA = .ok (spawnChild srv2 0 synAEth synAIp synATcp) ∧
    (synAckReply (w32 bobCfg.isn) synATcp).ack_num = w32 (synATcp.seq_num + 1) :=
  ⟨(c4_syn_ack_fields srv2 synA synAEth synAIp synATcp [] 0
      { port := 80, backlog := 1, readyQueue := [] }
      (by decide) (by decide) (by decide) (by decide) (by decide)
      (by decide) (by decide)).1,
   (c4_syn_ack_fields srv2 synA synAEth synAIp synATcp [] 0
      { port := 80, backlog := 1, readyQueue := [] }
      (by decide) (by decide) (by decide) (by decide) (by decide)
      (by decide) (by decide)).2.2.2.2.2.1⟩

/-- C5: a SYN+ACK acknowledging ISN+1 and delivered to a SYN_SENT
connection moves it to ESTABLISHED, and the pending pure ACK carries
sequence number ISN+1 (mod 2^32), acknowledgment number equal to the
peer's sequence number plus one (mod 2^32), the ACK flag set and the SYN
flag unset; the scheduler poll emits exactly that segment's frame. -/
theorem c5_established_ack_fields (e : Engine) (f : List Nat)
    (eh : Ethernet2Header) (ih : Ipv4Header) (th : TcpHeader)
    (pl : List Nat) (fd : Nat) (c : Connection)
    (hdec : decodeFrame e.cfg f = some (eh, ih, th, pl))
    (hdemux : demuxConn e ih.src_addr th.src_port th.dst_port = some fd)
    (hconn : lookupSock e fd = some (.conn c))
    (hstate : c.state = .SynSent)
    (hsyn : th.syn = true) (hthack : th.ack = true)
    (hacknum : th.ack_num = w32 (c.isn + 1)) :
    receive e f = .ok (updateSock e fd (.conn (connDeliver c th))) ∧
    connDeliver c th =
      { c with state := .Established, rcvNxt := w32 (th.seq_num + 1),
               sndNxt := w32 (c.isn + 1),
               pendingSeg := some (estAckReply c th) } ∧
    connStateAt (updateSock e fd (.conn (connDeliver c th))) fd =
      some .Established ∧
    (estAckReply c th).seq_num = w32 (c.isn + 1) ∧
    (estAckReply c th).ack_num = w32 (th.seq_num + 1) ∧
    (estAckReply c th).ack = true ∧
    (estAckReply c th).syn = false ∧
    mkFrame e.cfg (connDeliver c th) (estAckReply c th) ∈
      (poll_scheduler (updateSock e fd (.conn (connDeliver c th)))).outbox := by
  have hdel : connDeliver c th =
      { c with state := .Established, rcvNxt := w32 (th.seq_num + 1),
               sndNxt := w32 (c.isn + 1),
               pendingSeg := some (estAckReply c th) } := by
    unfold connDeliver
    rw [hstate]
    simp [hsyn, hthack, hacknum]
  have hcompl : deliverCompletes c th = false := by
    unfold deliverCompletes
    rw [hstate]
    simp
  refine ⟨?_, hdel, ?_, rfl, rfl, rfl, rfl, ?_⟩
  · unfold receive
    simp only [hdec, hdemux]
    unfold deliverToConn
    rw [hconn]
    simp [hcompl]
  · unfold connStateAt lookupSock updateSock
    simp only
    rw [assocFind_update_self _ hconn]
    rw [hdel]
  · unfold poll_scheduler
    simp only
    apply List.mem_append_right
    rw [List.mem_filterMap]
    refine ⟨(fd, .conn (connDeliver c th)), ?_, ?_⟩
    · exact assocUpdate_mem _ hconn
    · rw [hdel]
      rfl

theorem c5_established_ack_fields_witness :
    receive cli5 synAckFrame =
      .ok (updateSock cli5 0 (.conn (connDeliver cli5Conn synAckTcpW))) ∧
    (estAckReply cli5Conn synAckTcpW).seq_num = w32 (cli5Conn.isn + 1) :=
  ⟨(c5_established_ack_fields cli5 synAckFrame synAckEthW synAckIpW
      synAckTcpW [] 0 cli5Conn (by decide) (by decide) (by decide)
      (by decide) (by decide) (by decide) (by decide)).1,
   (c5_established_ack_fields cli5 synAckFrame synAckEthW synAckIpW
      synAckTcpW [] 0 cli5Conn (by decide) (by decide) (by decide)
      (by decide) (by decide) (by decide) (by decide)).2.2.2.1⟩

/-- C9: a listener at backlog capacity drops a further pure SYN silently,
leaving the engine unchanged and sending no response; concretely, the
backlog-1 listener of the test pair that receives two SYNs admits exactly
one SYN_RCVD child, stays in LISTEN, answers with exactly one SYN+ACK
frame, and the second SYN leaves the engine untouched. -/
theorem c9_backlog_enforcement :
    (∀ (e : Engine) (f : List Nat) (eh : Ethernet2Header)
       (ih : Ipv4Header) (th : TcpHeader) (pl : List Nat)
       (lfd : Nat) (l : Listener),
      decodeFrame e.cfg f = some (eh, ih, th, pl) →
      th.syn = true → th.ack = false →
      demuxConn e ih.src_addr th.src_port th.dst_port = none →
      demuxListener e th.dst_port = some (lfd, l) →
      ¬ (childCount e lfd + l.readyQueue.length < l.backlog) →
      receive e f = .ok e) ∧
    connCount bk1 = 1 ∧
    connStateAt bk1 1 = some .SynRcvd ∧
    lookupSock bk1 0 = some (.listener { port := 80, backlog := 1, readyQueue := [] }) ∧
    receive bk1 synB = .ok bk1 ∧
    connCount bk2 = 1 ∧
    lookupSock bk2 0 = some (.listener { port := 80, backlog := 1, readyQueue := [] }) ∧
    (poll_scheduler bk2).outbox.length = 1 := by
  refine ⟨?_, by decide, by decide, by decide, by decide, by decide,
          by decide, by decide⟩
  intro e f eh ih th pl lfd l hdec hsyn hack hnoconn hlis hcap
  unfold receive
  simp only [hdec, hnoconn, hlis, hsyn, hack, Bool.not_false, Bool.and_self]
  simp [hcap]

theorem c9_backlog_enforcement_witness :
    receive bk1 synB = .ok bk1 :=
  c9_backlog_enforcement.1 bk1 synB synAEth synAIp synBTcp [] 0
    { port := 80, backlog := 1, readyQueue := [] }
    (by decide) (by decide) (by decide) (by decide) (by decide) (by decide)

end Catnip
